import Mathlib

/-!
# Shallow embedding of the backend request handlers

This file embeds, in Lean, the request handlers of the community/business/jobs
platform that the specification describes:

* `supabase/functions/manage-jobs/index.ts` — the jobs board handler
  (actions `list`, `get`, `create`, `update`, `delete`, `apply`,
  `get_all_applications`);
* `supabase/functions/create-post/index.ts` and
  `supabase/functions/create-business/index.ts` — row-creation handlers
  that receive a `user_id` in the request body;
* the `mobile-auth` handler (`signup` action) bundled with the
  create-business function file.

Datastore tables become lists of rows inside a `DB` value; handlers become
pure functions from their request inputs and the current `DB` to the new
`DB`, an HTTP status code, and a result payload. Timestamps are natural
numbers (the handlers only compare them). Row ids are natural numbers.
Datastore reads always succeed; datastore writes succeed except where a
handler has an explicit error branch for a failed write, in which case the
write outcome is a boolean parameter of the embedded handler (`credInsertOk`,
`profileInsertOk`, ...). Ordering clauses (`order by created_at`) are not
modelled: rows keep their table order, which no claim depends on.
-/

/-- A row of the `jobs` table. -/
structure Job where
  id : Nat
  creator_id : Nat
  title : String
  description : String
  conditions : Option String
  location : Option String
  max_applications : Option Nat
  expires_at : Option Nat
  status : String
  approval_status : String
  created_at : Nat
  updated_at : Nat
deriving DecidableEq, Repr

/-- A row of the `job_applications` table. -/
structure JobApplication where
  id : Nat
  job_id : Nat
  applicant_id : Nat
  message : Option String
  education_qualification : Option String
  experience_details : Option String
deriving DecidableEq, Repr

/-- A row of the `profiles` table (the fields the embedded handlers read). -/
structure Profile where
  id : Nat
  full_name : Option String
  username : Option String
  mobile_number : Option String
  email : Option String
  date_of_birth : Option String
deriving DecidableEq, Repr

/-- A row of the `user_roles` table. -/
structure UserRole where
  user_id : Nat
  role : String
deriving DecidableEq, Repr

/-- A row of the `user_sessions` table. -/
structure Session where
  session_token : String
  user_id : Nat
  expires_at : Nat
  is_active : Bool
deriving DecidableEq, Repr

/-- A row of the `user_credentials` table. -/
structure Credential where
  id : Nat
  mobile_number : String
  password_hash : String
deriving DecidableEq, Repr

/-- A row of the `posts` table. -/
structure Post where
  id : Nat
  user_id : Nat
  content : Option String
  image_url : Option String
  youtube_url : Option String
deriving DecidableEq, Repr

/-- A row of the `businesses` table (the fields the embedded handlers write). -/
structure Business where
  id : Nat
  owner_id : Nat
  name : String
  description : Option String
  category : String
  location : Option String
  approval_status : String
deriving DecidableEq, Repr

/-- The datastore: one list of rows per table the embedded handlers touch. -/
structure DB where
  jobs : List Job
  job_applications : List JobApplication
  profiles : List Profile
  user_roles : List UserRole
  user_sessions : List Session
  user_credentials : List Credential
  posts : List Post
  businesses : List Business
deriving DecidableEq, Repr

/-- JavaScript truthiness of an optional string: `undefined`/`null` and the
empty string are falsy (`!x` in the source). -/
def jsTruthy : Option String → Bool
  | none => false
  | some s => !s.isEmpty

/-- `x || null` on an optional string: the empty string collapses to null. -/
def jsOrNull : Option String → Option String
  | none => none
  | some s => if s.isEmpty then none else some s

/-- `x?.trim() || null`: trim, and collapse absent or whitespace-only strings
to null (manage-jobs `create` and `apply` build their rows this way). -/
def trimOrNull : Option String → Option String
  | none => none
  | some s => if s.trim.isEmpty then none else some s.trim

/-- `!!x?.trim()`: an optional string is present when it is given and does not
trim to the empty string (the manage-jobs `create` validation
`!title?.trim() || !description?.trim()`). -/
def strPresent : Option String → Bool
  | none => false
  | some s => !s.trim.isEmpty

/-- `x || null` on an optional number: JavaScript treats `0` as falsy, so
`max_applications: max_applications || null` collapses `0` to null. -/
def natOrNull : Option Nat → Option Nat
  | some 0 => none
  | x => x

/-- Number of `job_applications` rows for a given job
(the `count: "exact"` query on `job_applications` filtered by `job_id`). -/
def countApplications (db : DB) (jid : Nat) : Nat :=
  (db.job_applications.filter (fun a => a.job_id == jid)).length

/-- Whether a user already has an application for a job (the `maybeSingle`
query on `job_applications` filtered by `job_id` and `applicant_id`). -/
def hasApplied (db : DB) (jid uid : Nat) : Bool :=
  db.job_applications.any (fun a => a.job_id == jid && a.applicant_id == uid)

/-- Profile lookup by id (`.from("profiles").select().eq("id", x)`). -/
def findProfile (db : DB) (uid : Nat) : Option Profile :=
  db.profiles.find? (fun p => p.id == uid)

/-- Job lookup by id (`.from("jobs").select().eq("id", x)`). -/
def findJob (db : DB) (jid : Nat) : Option Job :=
  db.jobs.find? (fun j => j.id == jid)

/-! ## manage-jobs: `list` action -/

/-- The auto-close step that opens the `list` action: every job with
`status = "open"` and a non-null `expires_at` earlier than now is updated to
`status = "closed"` with `updated_at` refreshed (manage-jobs lines 40-45). -/
def autoCloseExpired (now : Nat) (jobs : List Job) : List Job :=
  jobs.map fun j =>
    if j.status == "open" &&
        (match j.expires_at with
          | some t => decide (t < now)
          | none => false) then
      { j with status := "closed", updated_at := now }
    else j

/-- The visibility filter of the `list` action (manage-jobs lines 61-67):
the creator of a job always sees it; everyone sees approved open jobs. -/
def jobVisible (userId : Option Nat) (j : Job) : Bool :=
  (match userId with
    | some u => j.creator_id == u
    | none => false)
  || (j.approval_status == "approved" && j.status == "open")

/-- One element of the list returned by the `list` action: the job enriched
with its application count and whether the requester has applied. -/
structure JobListing where
  job : Job
  application_count : Nat
  has_applied : Bool
deriving DecidableEq, Repr

/-- The `list` action of manage-jobs: auto-close expired jobs, fetch all jobs,
keep the visible ones, and enrich each with application counts. Returns the
updated datastore and the response payload. -/
def listAction (now : Nat) (userId : Option Nat) (db : DB) :
    DB × List JobListing :=
  let jobs := autoCloseExpired now db.jobs
  let db1 : DB := { db with jobs := jobs }
  let filtered := jobs.filter (jobVisible userId)
  (db1, filtered.map fun j =>
    { job := j
      application_count := countApplications db1 j.id
      has_applied :=
        match userId with
        | some u => hasApplied db1 j.id u
        | none => false })

/-- A sample open, approved job that expires at time 50 (used by witnesses). -/
def sampleJob : Job :=
  { id := 1, creator_id := 2, title := "t", description := "d",
    conditions := none, location := none, max_applications := none,
    expires_at := some 50, status := "open", approval_status := "approved",
    created_at := 0, updated_at := 0 }

example :
    autoCloseExpired 100 [sampleJob] =
      [{ sampleJob with status := "closed", updated_at := 100 }] := by
  decide

/-! ## manage-jobs: `get` action -/

/-- An error thrown inside a handler and caught by its outer `catch`. -/
structure ThrownError where
  message : String
deriving DecidableEq, Repr

/-- The outer `catch` of the manage-jobs handler (lines 593-600): it answers
status 500 with a body carrying `error.message` of the thrown error. -/
def manageJobsCatch (e : ThrownError) : Nat × String :=
  (500, e.message)

/-- The message PostgREST attaches to the error that `.single()` produces
when the filtered select matches no row. -/
def singleNoRowsMessage : String :=
  "JSON object requested, multiple (or no) rows returned"

/-- Response payload of the `get` action. -/
inductive GetRes
  /-- An error body `{ error: msg }`. -/
  | errorBody (msg : String)
  /-- The job with its application count, whether the requester applied, and
  (for the creator) the applications joined with applicant profiles. -/
  | payload (job : Job) (application_count : Nat) (has_applied : Bool)
      (applications : List (JobApplication × Option Profile))
deriving DecidableEq, Repr

/-- The body of the `get` case of manage-jobs (lines 139-212), before the
outer `catch`: a missing `job_id` is a 400; the `.single()` job lookup throws
when no row matches; an invisible job is a 404; otherwise the job is returned
enriched, with the application list when the requester is the creator. -/
def getActionE (userId : Option Nat) (job_id : Option Nat) (db : DB) :
    Except ThrownError (Nat × GetRes) :=
  match job_id with
  | none => .ok (400, .errorBody "Job ID required")
  | some jid =>
    match findJob db jid with
    | none => .error ⟨singleNoRowsMessage⟩
    | some job =>
      if jobVisible userId job then
        let apps :=
          match userId with
          | some u =>
            if job.creator_id == u then
              (db.job_applications.filter (fun a => a.job_id == jid)).map
                (fun a => (a, findProfile db a.applicant_id))
            else []
          | none => []
        .ok (200, .payload job (countApplications db jid)
          (match userId with
            | some u => hasApplied db jid u
            | none => false) apps)
      else .ok (404, .errorBody "Job not found or access denied")

/-- The `get` action as observed over HTTP: the `get` case wrapped in the
outer `catch` of the handler. -/
def getHandler (userId : Option Nat) (job_id : Option Nat) (db : DB) :
    Nat × GetRes :=
  match getActionE userId job_id db with
  | .ok r => r
  | .error e => ((manageJobsCatch e).1, .errorBody (manageJobsCatch e).2)

/-! ## manage-jobs: `create` action -/

/-- The `create` action of manage-jobs (lines 214-251): requires a session,
validates that title and description trim to something non-empty, and inserts
a job with `status = "open"` and `approval_status = "pending"`. `newId` and
`now` stand for the generated row id and the insertion timestamp. -/
def createAction (userId : Option Nat)
    (title description conditions location : Option String)
    (max_applications expires_at : Option Nat)
    (newId now : Nat) (db : DB) : DB × Nat × Option Job :=
  match userId with
  | none => (db, 401, none)
  | some uid =>
    if !strPresent title || !strPresent description then
      (db, 400, none)
    else
      let job : Job :=
        { id := newId, creator_id := uid,
          title := (title.getD "").trim,
          description := (description.getD "").trim,
          conditions := trimOrNull conditions,
          location := trimOrNull location,
          max_applications := natOrNull max_applications,
          expires_at := expires_at,
          status := "open", approval_status := "pending",
          created_at := now, updated_at := now }
      ({ db with jobs := db.jobs ++ [job] }, 200, some job)

/-! ## manage-jobs: `update` action -/

/-- The updatable fields of a job as they arrive in the `update` request body:
`none` means the key is absent from the body (manage-jobs filters the body by
the allow-list `title, description, conditions, location, max_applications,
expires_at, status`). -/
structure JobUpdates where
  title : Option String
  description : Option String
  conditions : Option (Option String)
  location : Option (Option String)
  max_applications : Option (Option Nat)
  expires_at : Option (Option Nat)
  status : Option String
deriving DecidableEq, Repr

/-- Apply the allow-listed updates to a job, refreshing `updated_at`
(manage-jobs lines 283-296). -/
def applyJobUpdates (j : Job) (u : JobUpdates) (now : Nat) : Job :=
  { j with
    title := u.title.getD j.title,
    description := u.description.getD j.description,
    conditions := u.conditions.getD j.conditions,
    location := u.location.getD j.location,
    max_applications := u.max_applications.getD j.max_applications,
    expires_at := u.expires_at.getD j.expires_at,
    status := u.status.getD j.status,
    updated_at := now }

/-- Outcome markers for the `update` action. -/
inductive UpdateRes
  | unauthenticated
  | missingJobId
  | notOwner
  | success
deriving DecidableEq, Repr

/-- The `update` action of manage-jobs (lines 253-302): requires a session and
a `job_id`, answers 403 when the job is missing or the requester is not its
creator, and otherwise applies the allow-listed updates. -/
def updateAction (now : Nat) (userId : Option Nat) (job_id : Option Nat)
    (u : JobUpdates) (db : DB) : DB × Nat × UpdateRes :=
  match userId with
  | none => (db, 401, .unauthenticated)
  | some uid =>
    match job_id with
    | none => (db, 400, .missingJobId)
    | some jid =>
      match findJob db jid with
      | none => (db, 403, .notOwner)
      | some existing =>
        if existing.creator_id != uid then
          (db, 403, .notOwner)
        else
          ({ db with jobs := db.jobs.map fun j =>
              if j.id == jid then applyJobUpdates j u now else j },
            200, .success)

/-! ## manage-jobs: `apply` action -/

/-- Outcome markers for the `apply` action. -/
inductive ApplyRes
  | unauthenticated
  | badRequest (msg : String)
  | success
deriving DecidableEq, Repr

/-- The `apply` action of manage-jobs (lines 346-410): requires a session and
a `job_id`; answers 400 when the job is missing or not an approved open job,
when the applicant created the job, or when the applicant already applied;
otherwise inserts the application row. `newAppId` stands for the generated
row id. The job row is fetched with `select("id, status, approval_status,
creator_id")`; `max_applications` is not among the selected columns and no
branch reads it. -/
def applyAction (userId : Option Nat) (job_id : Option Nat)
    (message education_qualification experience_details : Option String)
    (newAppId : Nat) (db : DB) : DB × Nat × ApplyRes :=
  match userId with
  | none => (db, 401, .unauthenticated)
  | some uid =>
    match job_id with
    | none => (db, 400, .badRequest "Job ID required")
    | some jid =>
      match findJob db jid with
      | none => (db, 400, .badRequest "Job is not open for applications")
      | some job =>
        if !(job.status == "open") || !(job.approval_status == "approved") then
          (db, 400, .badRequest "Job is not open for applications")
        else if job.creator_id == uid then
          (db, 400, .badRequest "Cannot apply to your own job")
        else if hasApplied db jid uid then
          (db, 400, .badRequest "You have already applied to this job")
        else
          ({ db with job_applications := db.job_applications ++
              [{ id := newAppId, job_id := jid, applicant_id := uid,
                 message := trimOrNull message,
                 education_qualification := trimOrNull education_qualification,
                 experience_details := trimOrNull experience_details }] },
            200, .success)

/-! ## manage-jobs: `get_all_applications` action -/

/-- The session lookup of `get_all_applications` (lines 484-490): an active
session row with this token whose `expires_at` is strictly greater than now. -/
def findActiveSession (db : DB) (now : Nat) (tok : String) : Option Session :=
  db.user_sessions.find? fun s =>
    s.session_token == tok && s.is_active && decide (now < s.expires_at)

/-- The `get_all_applications` action of manage-jobs (lines 473-525): requires
a session token naming an active unexpired session; answers 403 when the user
has no row at all in `user_roles`; otherwise returns every application joined
with the applicant profile (which carries `mobile_number` and `email`). -/
def getAllApplicationsAction (sessionToken : Option String) (now : Nat)
    (db : DB) : Nat × Option (List (JobApplication × Option Profile)) :=
  match sessionToken with
  | none => (401, none)
  | some tok =>
    match findActiveSession db now tok with
    | none => (401, none)
    | some session =>
      let roles := db.user_roles.filter (fun r => r.user_id == session.user_id)
      if roles.isEmpty then (403, none)
      else
        (200, some (db.job_applications.map
          (fun a => (a, findProfile db a.applicant_id))))

/-! ## create-post handler -/

/-- Outcome markers for the create-post handler. -/
inductive CreatePostRes
  | missingUserId
  | profileSetupFailed
  | emptyPost
  | insertFailed
  | success
deriving DecidableEq, Repr

/-- The create-post handler (`create-post/index.ts`): it reads `user_id`,
`content`, `image_url`, `youtube_url` from the request body — there is no
session-token input anywhere in the function. A missing profile for `user_id`
is upserted on the fly (`upsertOk` is the outcome of that upsert); a post must
carry content, an image, or a video; the post row is then inserted
(`postInsertOk` is the outcome of the insert). -/
def createPostAction (user_id : Option Nat)
    (content image_url youtube_url : Option String)
    (upsertOk postInsertOk : Bool) (newPostId : Nat) (db : DB) :
    DB × Nat × CreatePostRes :=
  match user_id with
  | none => (db, 400, .missingUserId)
  | some uid =>
    let step : Option DB :=
      match findProfile db uid with
      | some _ => some db
      | none =>
        if upsertOk then
          some { db with profiles := db.profiles ++
            [{ id := uid, full_name := none, username := none,
               mobile_number := none, email := none, date_of_birth := none }] }
        else none
    match step with
    | none => (db, 400, .profileSetupFailed)
    | some db1 =>
      if !jsTruthy content && !jsTruthy image_url && !jsTruthy youtube_url then
        (db1, 400, .emptyPost)
      else if !postInsertOk then
        (db1, 500, .insertFailed)
      else
        ({ db1 with posts := db1.posts ++
            [{ id := newPostId, user_id := uid,
               content := jsOrNull content,
               image_url := jsOrNull image_url,
               youtube_url := jsOrNull youtube_url }] },
          200, .success)

/-! ## create-business handler -/

/-- Outcome markers for the create-business handler. -/
inductive CreateBusinessRes
  | missingUserId
  | missingName
  | userNotFound
  | insertFailed
  | success
deriving DecidableEq, Repr

/-- `x || d` on an optional string with a string default. -/
def jsOr (x : Option String) (d : String) : String :=
  match x with
  | none => d
  | some s => if s.isEmpty then d else s

/-- The create-business handler (`create-business/index.ts`): it reads
`user_id` and the business fields from the request body — there is no
session-token input anywhere in the function. It requires `user_id` and
`name`, requires a profile row for `user_id` to exist, and inserts the
business with `approval_status = "pending"` (`insertOk` is the outcome of
the insert). -/
def createBusinessAction (user_id : Option Nat)
    (name description category location : Option String)
    (insertOk : Bool) (newBizId : Nat) (db : DB) :
    DB × Nat × CreateBusinessRes :=
  match user_id with
  | none => (db, 400, .missingUserId)
  | some uid =>
    if !jsTruthy name then (db, 400, .missingName)
    else
      match findProfile db uid with
      | none => (db, 400, .userNotFound)
      | some _ =>
        if !insertOk then (db, 500, .insertFailed)
        else
          ({ db with businesses := db.businesses ++
              [{ id := newBizId, owner_id := uid,
                 name := name.getD "",
                 description := jsOrNull description,
                 category := jsOr category "other",
                 location := jsOrNull location,
                 approval_status := "pending" }] },
            200, .success)

/-! ## mobile-auth handler: `signup` action -/

/-- The username format check of signup: the regular expression
`[a-zA-Z0-9_]` repeated 3 to 30 times, anchored at both ends. -/
def usernameOk (u : String) : Bool :=
  3 ≤ u.length && u.length ≤ 30 &&
    u.toList.all (fun c => c.isAlphanum || c == '_')

/-- Outcome markers for the signup action. -/
inductive SignupRes
  | badRequest (msg : String)
  | serverError (msg : String)
  | success (userId : Nat) (token : String)
deriving DecidableEq, Repr

/-- The `signup` action of the mobile-auth handler: input presence checks,
the username format check, the two application-level duplicate lookups
(mobile number against `user_credentials`, lowercased username against
`profiles`), then the credentials insert, the profile insert (with rollback
of the credentials row when it fails), and the session insert. `hash` stands
for the SHA-256 password hash, `newUserId` for the generated credentials row
id, `newToken` for the generated session token; `credInsertOk`,
`profileInsertOk` and `sessionInsertOk` are the outcomes the datastore gives
the three inserts. Thirty days in milliseconds extend `now` into the session
expiry. -/
def signupAction (mobile_number password full_name username : Option String)
    (date_of_birth : Option String) (hash : String → String)
    (newUserId : Nat) (newToken : String)
    (credInsertOk profileInsertOk sessionInsertOk : Bool) (now : Nat)
    (db : DB) : DB × Nat × SignupRes :=
  if !jsTruthy mobile_number || !jsTruthy password then
    (db, 400, .badRequest "Mobile number and password are required")
  else if !jsTruthy full_name || !jsTruthy username then
    (db, 400, .badRequest "Full name and username are required for signup")
  else
    let m := mobile_number.getD ""
    let un := username.getD ""
    if !usernameOk un then
      (db, 400, .badRequest
        "Username must be 3-30 characters and only contain letters, numbers, and underscores")
    else if (db.user_credentials.find? (fun c => c.mobile_number == m)).isSome then
      (db, 400, .badRequest "This mobile number is already registered")
    else if (db.profiles.find? (fun p => p.username == some un.toLower)).isSome then
      (db, 400, .badRequest "This username is already taken")
    else if !credInsertOk then
      (db, 500, .serverError "Failed to create account")
    else
      let cred : Credential :=
        { id := newUserId, mobile_number := m, password_hash := hash (password.getD "") }
      let db1 : DB := { db with user_credentials := db.user_credentials ++ [cred] }
      if !profileInsertOk then
        -- Rollback: delete the just-created credentials row.
        ({ db1 with user_credentials :=
            db1.user_credentials.filter (fun c => c.id != newUserId) },
          500, .serverError "Failed to create profile")
      else
        let db2 : DB := { db1 with profiles := db1.profiles ++
          [{ id := newUserId, full_name := full_name,
             username := some un.toLower, mobile_number := some m,
             email := none, date_of_birth := date_of_birth }] }
        if !sessionInsertOk then
          (db2, 500, .serverError "Failed to create session")
        else
          ({ db2 with user_sessions := db2.user_sessions ++
              [{ session_token := newToken, user_id := newUserId,
                 expires_at := now + 30 * 24 * 60 * 60 * 1000,
                 is_active := true }] },
            200, .success newUserId newToken)

/-! ## Sample datastores used by witnesses and counterexamples -/

/-- The empty datastore. -/
def emptyDB : DB :=
  { jobs := [], job_applications := [], profiles := [], user_roles := [],
    user_sessions := [], user_credentials := [], posts := [], businesses := [] }

/-! ## Shared lemmas -/

/-- The updated table of the `list` action is the auto-closed jobs table. -/
theorem listAction_fst_jobs (now : Nat) (userId : Option Nat) (db : DB) :
    (listAction now userId db).1.jobs = autoCloseExpired now db.jobs := rfl

/-- No job of the auto-closed table is both open and expired. -/
theorem autoCloseExpired_not_open_expired (now : Nat) (jobs : List Job)
    (j : Job) (hj : j ∈ autoCloseExpired now jobs) (t : Nat)
    (ht : j.expires_at = some t) (hlt : t < now) : j.status ≠ "open" := by
  unfold autoCloseExpired at hj
  obtain ⟨j0, hj0, hEq⟩ := List.mem_map.mp hj
  by_cases hc : (j0.status == "open" &&
      (match j0.expires_at with
        | some t => decide (t < now)
        | none => false)) = true
  · rw [if_pos hc] at hEq
    subst hEq
    intro hcontra
    simp at hcontra
  · rw [if_neg hc] at hEq
    subst hEq
    intro hst
    exact hc (by simp [hst, ht, hlt])

/-- A job appears in the payload of the `list` action exactly when it is in
the auto-closed table and passes the visibility filter. -/
theorem mem_listAction_iff (now : Nat) (userId : Option Nat) (db : DB)
    (j : Job) :
    (∃ l ∈ (listAction now userId db).2, l.job = j) ↔
      j ∈ autoCloseExpired now db.jobs ∧ jobVisible userId j = true := by
  unfold listAction
  simp only [List.mem_map, List.mem_filter]
  constructor
  · rintro ⟨l, ⟨j1, ⟨hm, hv⟩, rfl⟩, rfl⟩
    exact ⟨hm, hv⟩
  · rintro ⟨hm, hv⟩
    exact ⟨_, ⟨j, ⟨hm, hv⟩, rfl⟩, rfl⟩

/-- The visibility filter, unfolded for an arbitrary requester: it passes
exactly when the requester is authenticated as the creator of the job, or
the job is approved and open. -/
theorem jobVisible_iff (userId : Option Nat) (j : Job) :
    jobVisible userId j = true ↔
      (∃ uid, userId = some uid ∧ j.creator_id = uid) ∨
        (j.approval_status = "approved" ∧ j.status = "open") := by
  cases userId with
  | none => simp [jobVisible]
  | some uid => simp [jobVisible]

/-! ## C4: expired jobs are auto-closed before listing -/

/-- C4: when the manage-jobs `list` action runs, every job whose status is
"open" and whose `expires_at` is non-null and earlier than the current time is
set to status "closed" with `updated_at` refreshed, before the job list is
returned — so no listing in the response shows an expired job as open. -/
theorem listAction_autoCloses (now : Nat) (userId : Option Nat) (db : DB) :
    (∀ j ∈ db.jobs, j.status = "open" → ∀ t, j.expires_at = some t → t < now →
      { j with status := "closed", updated_at := now } ∈
        (listAction now userId db).1.jobs)
    ∧ (∀ l ∈ (listAction now userId db).2, ∀ t, l.job.expires_at = some t →
        t < now → l.job.status ≠ "open") := by
  constructor
  · intro j hj hopen t ht hlt
    rw [listAction_fst_jobs]
    unfold autoCloseExpired
    refine List.mem_map.mpr ⟨j, hj, ?_⟩
    rw [if_pos (by simp [hopen, ht, hlt])]
  · intro l hl t ht hlt
    have hmem : (∃ l1 ∈ (listAction now userId db).2, l1.job = l.job) :=
      ⟨l, hl, rfl⟩
    have h2 := (mem_listAction_iff now userId db l.job).mp hmem
    exact autoCloseExpired_not_open_expired now db.jobs l.job h2.1 t ht hlt

/-- Witness for C4 at a concrete datastore: the sample job, open and expired
at time 100, appears closed in the updated table. -/
theorem listAction_autoCloses_witness :
    { sampleJob with status := "closed", updated_at := 100 } ∈
      (listAction 100 none
        { emptyDB with jobs := [sampleJob] }).1.jobs := by
  exact (listAction_autoCloses 100 none
      { emptyDB with jobs := [sampleJob] }).1 sampleJob (by decide) (by decide)
    50 (by decide) (by decide)

/-! ## C3: approval status gates public visibility in `list` -/

/-- C3: for every job in the table the `list` action reads and every
requester who is not authenticated as the creator of the job — whether
unauthenticated or authenticated under a different user id — the action
includes the job in its result if and only if the approval status of the job
is "approved" and its status is "open"; a creator always sees their own
jobs regardless of status. -/
theorem listAction_visibility (now : Nat) (userId : Option Nat) (db : DB)
    (j : Job) (hj : j ∈ (listAction now userId db).1.jobs) :
    ((∀ uid, userId = some uid → j.creator_id ≠ uid) →
      ((∃ l ∈ (listAction now userId db).2, l.job = j) ↔
        (j.approval_status = "approved" ∧ j.status = "open")))
    ∧ (∀ uid, userId = some uid → j.creator_id = uid →
        ∃ l ∈ (listAction now userId db).2, l.job = j) := by
  rw [listAction_fst_jobs] at hj
  constructor
  · intro hne
    rw [mem_listAction_iff]
    constructor
    · rintro ⟨-, hv⟩
      rcases (jobVisible_iff userId j).mp hv with ⟨uid, huid, hcr⟩ | h
      · exact absurd hcr (hne uid huid)
      · exact h
    · intro h
      exact ⟨hj, (jobVisible_iff userId j).mpr (Or.inr h)⟩
  · intro uid huid hcr
    subst huid
    rw [mem_listAction_iff]
    exact ⟨hj, (jobVisible_iff (some uid) j).mpr (Or.inl ⟨uid, rfl, hcr⟩)⟩

/-- Witness for C3 at a concrete datastore: the sample job (creator 2) is
approved and open at time 10, so both the unauthenticated requester and the
authenticated non-creator 3 see it listed. -/
theorem listAction_visibility_witness :
    (∃ l ∈ (listAction 10 none { emptyDB with jobs := [sampleJob] }).2,
      l.job = sampleJob) ∧
    (∃ l ∈ (listAction 10 (some 3) { emptyDB with jobs := [sampleJob] }).2,
      l.job = sampleJob) := by
  constructor
  · exact ((listAction_visibility 10 none { emptyDB with jobs := [sampleJob] }
        sampleJob (by decide)).1 (fun uid h => nomatch h)).mpr (by decide)
  · exact ((listAction_visibility 10 (some 3)
        { emptyDB with jobs := [sampleJob] } sampleJob (by decide)).1
      (fun uid h => by cases h; decide)).mpr (by decide)

/-! ## C5: a non-owner updating a job gets 403 and no update happens -/

/-- C5: for every request to the `update` action by an authenticated user
whose id differs from the `creator_id` of the job named by `job_id` (which
also covers a `job_id` naming no job), the handler answers status 403 and
changes nothing in the datastore. -/
theorem updateAction_nonowner_403 (now uid jid : Nat) (u : JobUpdates)
    (db : DB) (h : ∀ j ∈ db.jobs, j.id = jid → j.creator_id ≠ uid) :
    (updateAction now (some uid) (some jid) u db).1 = db ∧
    (updateAction now (some uid) (some jid) u db).2.1 = 403 ∧
    (updateAction now (some uid) (some jid) u db).2.2 = UpdateRes.notOwner := by
  unfold updateAction
  cases hf : findJob db jid with
  | none => simp [hf]
  | some existing =>
    have hmem := List.mem_of_find?_eq_some hf
    have hid : existing.id = jid := by
      have := List.find?_some hf
      simpa using this
    have hne := h existing hmem hid
    simp [hf, hne]

/-- Witness for C5 at a concrete datastore: user 3 is not the creator of the
sample job (creator 2), so their update attempt answers 403 untouched. -/
theorem updateAction_nonowner_403_witness :
    (updateAction 0 (some 3) (some 1)
        { title := none, description := none, conditions := none,
          location := none, max_applications := none, expires_at := none,
          status := none }
        { emptyDB with jobs := [sampleJob] }).2.1 = 403 := by
  exact (updateAction_nonowner_403 0 3 1
      { title := none, description := none, conditions := none,
        location := none, max_applications := none, expires_at := none,
        status := none }
      { emptyDB with jobs := [sampleJob] } (by decide)).2.1

/-! ## C6: creating a job with a blank title or description gives 400 -/

/-- C6: for every authenticated request to the `create` action whose title is
absent, empty, or whitespace-only — or whose description is — the handler
answers status 400 and inserts no job. -/
theorem createAction_blank_400 (uid newId now : Nat)
    (title description conditions location : Option String)
    (max_applications expires_at : Option Nat) (db : DB)
    (h : title = none ∨ (∃ s, title = some s ∧ s.trim = "") ∨
         description = none ∨ (∃ s, description = some s ∧ s.trim = "")) :
    (createAction (some uid) title description conditions location
        max_applications expires_at newId now db).1 = db ∧
    (createAction (some uid) title description conditions location
        max_applications expires_at newId now db).2.1 = 400 ∧
    (createAction (some uid) title description conditions location
        max_applications expires_at newId now db).2.2 = none := by
  have hb : (!strPresent title || !strPresent description) = true := by
    rcases h with rfl | ⟨s, rfl, hs⟩ | rfl | ⟨s, rfl, hs⟩
    · simp [strPresent]
    · simp [strPresent, hs]
      exact Or.inl rfl
    · simp [strPresent]
    · simp [strPresent, hs]
      exact Or.inr rfl
  unfold createAction
  simp [hb]

/-- Witness for C6 at a concrete input: an absent title is refused with
status 400 and the empty datastore stays empty. -/
theorem createAction_blank_400_witness :
    (createAction (some 2) none (some "d") none none none none
        1 0 emptyDB).1 = emptyDB ∧
    (createAction (some 2) none (some "d") none none none none
        1 0 emptyDB).2.1 = 400 ∧
    (createAction (some 2) none (some "d") none none none none
        1 0 emptyDB).2.2 = none := by
  exact createAction_blank_400 2 1 0 none (some "d") none none
    none none emptyDB (Or.inl rfl)

/-! ## C8: the acceptance condition of the `apply` action -/

/-- Reassign the `max_applications` column of every job (used to state that
the `apply` action never consults that column). -/
def setMaxApplications (f : Nat → Option Nat) (db : DB) : DB :=
  { db with jobs := db.jobs.map fun j => { j with max_applications := f j.id } }

/-- The applied-before check ignores the `max_applications` reassignment. -/
theorem hasApplied_setMaxApplications (f : Nat → Option Nat) (db : DB)
    (jid uid : Nat) :
    hasApplied (setMaxApplications f db) jid uid = hasApplied db jid uid := rfl

/-- Job lookup commutes with reassigning `max_applications`. -/
theorem findJob_setMaxApplications (f : Nat → Option Nat) (db : DB)
    (jid : Nat) :
    findJob (setMaxApplications f db) jid =
      (findJob db jid).map (fun j => { j with max_applications := f j.id }) := by
  unfold findJob setMaxApplications
  rw [List.find?_map]
  rfl

/-- C8: an authenticated `apply` request answers 400 exactly when the
`job_id` is missing, the referenced job does not exist or is not both open
and approved, the applicant created the job, or the applicant already
applied; in every other case it answers 200 and appends the application row;
and the whole outcome is unchanged under any reassignment of the
`max_applications` column of every job — the limit is never consulted. -/
theorem applyAction_spec (uid newAppId : Nat) (jobIdOpt : Option Nat)
    (m e x : Option String) (db : DB) (f : Nat → Option Nat) :
    ((applyAction (some uid) jobIdOpt m e x newAppId db).2.1 = 400 ↔
      (jobIdOpt = none ∨ ∃ jid, jobIdOpt = some jid ∧
        (findJob db jid = none ∨ ∃ job, findJob db jid = some job ∧
          (¬(job.status = "open" ∧ job.approval_status = "approved") ∨
           job.creator_id = uid ∨ hasApplied db jid uid = true))))
    ∧ (∀ jid, jobIdOpt = some jid →
        (applyAction (some uid) (some jid) m e x newAppId db).2.1 ≠ 400 →
        (applyAction (some uid) (some jid) m e x newAppId db).2 =
          (200, ApplyRes.success) ∧
        (applyAction (some uid) (some jid) m e x newAppId db).1.job_applications =
          db.job_applications ++
            [{ id := newAppId, job_id := jid, applicant_id := uid,
               message := trimOrNull m,
               education_qualification := trimOrNull e,
               experience_details := trimOrNull x }])
    ∧ ((applyAction (some uid) jobIdOpt m e x newAppId
          (setMaxApplications f db)).2 =
        (applyAction (some uid) jobIdOpt m e x newAppId db).2)
    ∧ ((applyAction (some uid) jobIdOpt m e x newAppId
          (setMaxApplications f db)).1.job_applications =
        (applyAction (some uid) jobIdOpt m e x newAppId db).1.job_applications) := by
  refine ⟨?_, ?_, ?_, ?_⟩
  · cases jobIdOpt with
    | none => simp [applyAction]
    | some jid =>
      unfold applyAction
      cases hf : findJob db jid with
      | none => simp [hf]
      | some job =>
        simp only [hf, Option.some.injEq]
        split_ifs with h1 h2 h3 <;> simp_all <;> tauto
  · intro jid hjid hne
    unfold applyAction at hne ⊢
    cases hf : findJob db jid with
    | none => simp [hf] at hne
    | some job =>
      simp only [hf] at hne ⊢
      split_ifs at hne ⊢ <;> simp_all
  · cases jobIdOpt with
    | none => rfl
    | some jid =>
      simp only [applyAction]
      rw [findJob_setMaxApplications]
      cases hf : findJob db jid with
      | none => simp only [hf]; rfl
      | some job =>
        simp only [hf, Option.map_some', hasApplied_setMaxApplications]
        split_ifs <;> rfl
  · cases jobIdOpt with
    | none => rfl
    | some jid =>
      simp only [applyAction]
      rw [findJob_setMaxApplications]
      cases hf : findJob db jid with
      | none => simp only [hf]; rfl
      | some job =>
        simp only [hf, Option.map_some', hasApplied_setMaxApplications]
        split_ifs <;> rfl

/-- An application by user 3 to job 1 (used by witnesses). -/
def sampleApplication : JobApplication :=
  { id := 1, job_id := 1, applicant_id := 3, message := none,
    education_qualification := none, experience_details := none }

/-- A datastore for the apply witness: job 1 is open and approved with
`max_applications = 1`, and already has one application (from user 3). -/
def dbApply : DB :=
  { emptyDB with
    jobs := [{ sampleJob with max_applications := some 1, expires_at := none }],
    job_applications := [sampleApplication] }

/-- Witness for C8 at a concrete datastore: user 4 applies to job 1 even
though its application count has already reached `max_applications = 1`; the
application is accepted and appended. -/
theorem applyAction_spec_witness :
    (applyAction (some 4) (some 1) none none none 2 dbApply).2 =
      (200, ApplyRes.success) ∧
    (applyAction (some 4) (some 1) none none none 2 dbApply).1.job_applications =
      dbApply.job_applications ++
        [{ id := 2, job_id := 1, applicant_id := 4, message := none,
           education_qualification := none, experience_details := none }] := by
  have h := (applyAction_spec 4 2 (some 1) none none none dbApply
      (fun _ => none)).2.1
  have hne : (applyAction (some 4) (some 1) none none none 2 dbApply).2.1 ≠
      400 := by decide
  simpa [trimOrNull] using h 1 rfl hne

/-! ## C9: `get_all_applications` accepts any role whatsoever -/

/-- C9: the admin-only `get_all_applications` action grants access to any
requester whose session is active and who has at least one `user_roles` row —
of any role value whatsoever, since only non-emptiness of the role list is
tested — and then returns every job application joined with the applicant
profile, which carries the mobile number and email fields. -/
theorem getAllApplications_any_role (tok : String) (now : Nat) (db : DB)
    (s : Session) (hfind : findActiveSession db now tok = some s)
    (r : UserRole) (hr : r ∈ db.user_roles) (hru : r.user_id = s.user_id) :
    getAllApplicationsAction (some tok) now db =
      (200, some (db.job_applications.map
        (fun a => (a, findProfile db a.applicant_id)))) := by
  simp only [getAllApplicationsAction, hfind]
  have hne : (db.user_roles.filter
      (fun x => x.user_id == s.user_id)).isEmpty = false := by
    have hmem : r ∈ db.user_roles.filter (fun x => x.user_id == s.user_id) :=
      List.mem_filter.mpr ⟨hr, by simp [hru]⟩
    rcases hfilter : db.user_roles.filter (fun x => x.user_id == s.user_id) with
      - | ⟨a, l⟩
    · rw [hfilter] at hmem; simp at hmem
    · rw [hfilter]; rfl
  simp [hne]

/-- A datastore for the C9 witness: an active session for user 5 whose only
role row is the non-admin role "moderator", one application, and the
applicant profile carrying a mobile number and an email. -/
def sampleSession : Session :=
  { session_token := "tok", user_id := 5, expires_at := 100, is_active := true }

def applicantProfile : Profile :=
  { id := 3, full_name := some "A", username := some "a3",
    mobile_number := some "9990001111", email := some "a3@x",
    date_of_birth := none }

def dbRoles : DB :=
  { emptyDB with
    user_sessions := [sampleSession],
    user_roles := [{ user_id := 5, role := "moderator" }],
    job_applications := [sampleApplication],
    profiles := [applicantProfile] }

/-- Witness for C9 at a concrete datastore: the holder of the lone
"moderator" role receives the full application list with the joined
applicant profile. -/
theorem getAllApplications_any_role_witness :
    getAllApplicationsAction (some "tok") 10 dbRoles =
      (200, some (dbRoles.job_applications.map
        (fun a => (a, findProfile dbRoles a.applicant_id)))) := by
  exact getAllApplications_any_role "tok" 10 dbRoles sampleSession
    (by decide) { user_id := 5, role := "moderator" } (by decide) rfl

/-! ## C10: signup rolls back the credentials row when the profile insert fails -/

/-- C10: whenever the profile insert of the `signup` action fails, the
credentials table ends up exactly as it started — the just-created
credentials row (whose id `newUserId` is fresh) is deleted again before the
error is returned — and the signup does not succeed, so no failed signup
leaves a credentials row without a matching profile. -/
theorem signup_rollback (mobile_number password full_name username : Option String)
    (date_of_birth : Option String) (hash : String → String)
    (newUserId : Nat) (newToken : String) (credInsertOk sessionInsertOk : Bool)
    (now : Nat) (db : DB)
    (hfresh : ∀ c ∈ db.user_credentials, c.id ≠ newUserId) :
    (signupAction mobile_number password full_name username date_of_birth
        hash newUserId newToken credInsertOk false sessionInsertOk now
        db).1.user_credentials = db.user_credentials ∧
    (signupAction mobile_number password full_name username date_of_birth
        hash newUserId newToken credInsertOk false sessionInsertOk now
        db).2.1 ≠ 200 := by
  have hroll : ∀ cred : Credential, cred.id = newUserId →
      (db.user_credentials ++ [cred]).filter
        (fun c => c.id != newUserId) = db.user_credentials := by
    intro cred hcred
    rw [List.filter_append,
      List.filter_eq_self.mpr (fun c hc => by simpa using hfresh c hc)]
    simp [hcred]
  simp only [signupAction, Bool.not_false, if_true]
  split_ifs with h1 h2 h3 h4 h5 h6
  · exact ⟨rfl, by simp⟩
  · exact ⟨rfl, by simp⟩
  · exact ⟨rfl, by simp⟩
  · exact ⟨rfl, by simp⟩
  · exact ⟨rfl, by simp⟩
  · exact ⟨rfl, by simp⟩
  · exact ⟨hroll _ rfl, by simp⟩

/-- Witness for C10 at a concrete input: a signup on the empty datastore
whose profile insert fails leaves the credentials table empty and does not
answer 200. -/
theorem signup_rollback_witness :
    (signupAction (some "9990001111") (some "pw") (some "Eva") (some "eva_m")
        none (fun s => s) 1 "tok" true false true 0
        emptyDB).1.user_credentials = emptyDB.user_credentials ∧
    (signupAction (some "9990001111") (some "pw") (some "Eva") (some "eva_m")
        none (fun s => s) 1 "tok" true false true 0 emptyDB).2.1 ≠ 200 := by
  exact signup_rollback (some "9990001111") (some "pw") (some "Eva")
    (some "eva_m") none (fun s => s) 1 "tok" true true 0 emptyDB (by decide)

/-! ## C7: signup duplicate checks are application-level, not datastore-level -/

/-- A datastore holding one credentials row with mobile number 9990001111
(used to exhibit the application-level duplicate check of signup). -/
def dbDupMobile : DB :=
  { emptyDB with user_credentials :=
      [{ id := 1, mobile_number := "9990001111", password_hash := "h" }] }

/-- Counterexample to C7: the signup flow does contain an application-level
check that the mobile number is taken. On a datastore whose inserts all
succeed (every insert-outcome parameter is true, so no relational constraint
ever rejects anything), signing up with an already-registered mobile number
is still refused with 400 by the handler itself, before any insert. -/
theorem signup_dup_mobile_app_check :
    signupAction (some "9990001111") (some "pw") (some "Eva") (some "eva_m")
        none (fun s => s) 2 "tok" true true true 0 dbDupMobile =
      (dbDupMobile, 400,
        SignupRes.badRequest "This mobile number is already registered") := by
  decide

/-- C7 amended: the signup flow checks at the application level, before any
insert, that the mobile number is not in `user_credentials` and that the
lowercased username is not in `profiles`, answering 400 and leaving the
datastore unchanged in either case — even when the datastore itself would
accept every insert. -/
theorem signup_duplicate_checks (m pw fn un : String)
    (date_of_birth : Option String) (hash : String → String)
    (newUserId : Nat) (newToken : String)
    (credInsertOk profileInsertOk sessionInsertOk : Bool) (now : Nat)
    (db : DB) (hm : m ≠ "") (hp : pw ≠ "") (hf : fn ≠ "")
    (hu : usernameOk un = true) :
    ((∃ c ∈ db.user_credentials, c.mobile_number = m) →
      signupAction (some m) (some pw) (some fn) (some un) date_of_birth hash
          newUserId newToken credInsertOk profileInsertOk sessionInsertOk now
          db =
        (db, 400, SignupRes.badRequest "This mobile number is already registered"))
    ∧ (db.user_credentials.find? (fun c => c.mobile_number == m) = none →
      (∃ p ∈ db.profiles, p.username = some un.toLower) →
      signupAction (some m) (some pw) (some fn) (some un) date_of_birth hash
          newUserId newToken credInsertOk profileInsertOk sessionInsertOk now
          db =
        (db, 400, SignupRes.badRequest "This username is already taken")) := by
  have hun : un ≠ "" := by
    intro h
    rw [h] at hu
    exact absurd hu (by decide)
  have hjs : ∀ s : String, s ≠ "" → jsTruthy (some s) = true := by
    intro s hs
    cases h : s.isEmpty with
    | false => simp [jsTruthy, h]
    | true => exact absurd ((String.isEmpty_iff s).mp h) hs
  have htm := hjs m hm
  have htp := hjs pw hp
  have htf := hjs fn hf
  have htu := hjs un hun
  constructor
  · intro hdup
    have hsome : (db.user_credentials.find?
        (fun c => c.mobile_number == m)).isSome = true := by
      rw [List.find?_isSome]
      obtain ⟨c, hc, hcm⟩ := hdup
      exact ⟨c, hc, by simp [hcm]⟩
    simp only [signupAction, htm, htp, htf, htu, hu, Option.getD_some]
    simp [hsome]
  · intro hnone hdup
    have hsome : (db.profiles.find?
        (fun p => p.username == some un.toLower)).isSome = true := by
      rw [List.find?_isSome]
      obtain ⟨p, hpmem, hpu⟩ := hdup
      exact ⟨p, hpmem, by simp [hpu]⟩
    simp only [signupAction, htm, htp, htf, htu, hu, Option.getD_some]
    simp [hnone, hsome]

/-- Witness for the amended C7 at a concrete input: the duplicate-mobile
refusal on a datastore that would accept every insert. -/
theorem signup_duplicate_checks_witness :
    signupAction (some "9990001111") (some "pw") (some "Eva") (some "eva_m")
        none (fun s => s) 2 "tok" true true true 0 dbDupMobile =
      (dbDupMobile, 400,
        SignupRes.badRequest "This mobile number is already registered") := by
  exact (signup_duplicate_checks "9990001111" "pw" "Eva" "eva_m" none
      (fun s => s) 2 "tok" true true true 0 dbDupMobile (by decide) (by decide)
      (by decide) (by decide)).1
    ⟨{ id := 1, mobile_number := "9990001111", password_hash := "h" },
      by decide, rfl⟩

/-! ## C1: error statuses of the manage-jobs `get` action and catch branch -/

/-- Counterexample to C1: requesting action `get` with a `job_id` that
matches no job does not answer 404. The `.single()` job lookup produces an
error, the handler throws it, and the outer catch answers 500 — carrying the
message of the thrown error, not a fixed generic message. -/
theorem getHandler_missing_job_not_404 :
    (getHandler none (some 1) emptyDB).1 = 500 ∧
    (getHandler none (some 1) emptyDB).1 ≠ 404 ∧
    getHandler none (some 1) emptyDB =
      (500, GetRes.errorBody singleNoRowsMessage) := by
  decide

/-- C1 amended: in the manage-jobs `get` action, a missing `job_id` answers
400; a `job_id` matching no job falls through to the catch branch and
answers 500 with the message of the thrown error (not 404, and not a fixed
generic message — the catch branch always returns the message of the
thrown error); 404 is answered exactly when the job exists but is not visible to
the requester; a visible job answers 200. -/
theorem getHandler_status_pattern (userId : Option Nat) (jid : Nat)
    (db : DB) :
    (getHandler userId none db =
      (400, GetRes.errorBody "Job ID required"))
    ∧ (findJob db jid = none →
      getHandler userId (some jid) db =
        (500, GetRes.errorBody singleNoRowsMessage))
    ∧ (∀ job, findJob db jid = some job → jobVisible userId job = false →
      getHandler userId (some jid) db =
        (404, GetRes.errorBody "Job not found or access denied"))
    ∧ (∀ job, findJob db jid = some job → jobVisible userId job = true →
      (getHandler userId (some jid) db).1 = 200)
    ∧ (∀ e : ThrownError, manageJobsCatch e = (500, e.message)) := by
  refine ⟨rfl, ?_, ?_, ?_, fun e => rfl⟩
  · intro hf
    unfold getHandler getActionE
    simp [hf, manageJobsCatch]
  · intro job hf hv
    unfold getHandler getActionE
    simp [hf, hv]
  · intro job hf hv
    unfold getHandler getActionE
    simp [hf, hv]

/-- Witness for the amended C1 at concrete inputs: on a datastore holding
only the sample job (id 1, creator 2, approved, open), job 2 is missing so
`get` answers 500; a pending job of user 2 is invisible to user 3 so `get`
answers 404; and the visible sample job answers 200. -/
theorem getHandler_status_pattern_witness :
    getHandler none (some 2) { emptyDB with jobs := [sampleJob] } =
      (500, GetRes.errorBody singleNoRowsMessage) ∧
    getHandler (some 3) (some 1)
        { emptyDB with jobs := [{ sampleJob with approval_status := "pending" }] } =
      (404, GetRes.errorBody "Job not found or access denied") ∧
    (getHandler (some 3) (some 1) { emptyDB with jobs := [sampleJob] }).1 =
      200 := by
  refine ⟨?_, ?_, ?_⟩
  · exact (getHandler_status_pattern none 2
      { emptyDB with jobs := [sampleJob] }).2.1 (by decide)
  · exact (getHandler_status_pattern (some 3) 1
      { emptyDB with jobs := [{ sampleJob with approval_status := "pending" }] }).2.2.1
      { sampleJob with approval_status := "pending" } (by decide) (by decide)
  · exact (getHandler_status_pattern (some 3) 1
      { emptyDB with jobs := [sampleJob] }).2.2.2.1 sampleJob (by decide)
      (by decide)

/-! ## C2: create-post and create-business never verify a session -/

/-- A bare profile row with id 7. -/
def profile7 : Profile :=
  { id := 7, full_name := none, username := none, mobile_number := none,
    email := none, date_of_birth := none }

/-- A datastore holding exactly one profile (id 7) and, in particular, no
session row at all. -/
def dbProfile7 : DB :=
  { emptyDB with profiles := [profile7] }

/-- Counterexample to C2: the create-post and create-business handlers create
a row on behalf of the received `user_id` although the datastore contains no
session whatsoever — neither handler verifies (or even receives) a session
token. -/
theorem createHandlers_no_session_counterexample :
    dbProfile7.user_sessions = [] ∧
    (createPostAction (some 7) (some "hello") none none true true 1
        dbProfile7).2 = (200, CreatePostRes.success) ∧
    (createPostAction (some 7) (some "hello") none none true true 1
        dbProfile7).1.posts =
      [{ id := 1, user_id := 7, content := some "hello", image_url := none,
         youtube_url := none }] ∧
    (createBusinessAction (some 7) (some "Biz") none none none true 1
        dbProfile7).2 = (200, CreateBusinessRes.success) := by
  decide

/-- C2 amended: the create-post and create-business handlers do not verify a
session before creating a row on behalf of the `user_id` they receive: their
responses and the rows they create are unchanged under any replacement of
the sessions table, and each creates its row whenever the received `user_id`
matches an existing profile and the required fields are present. -/
theorem createHandlers_no_session (uid newPostId newBizId : Nat)
    (content image_url youtube_url nm d cat loc : Option String)
    (upsertOk postInsertOk bizInsertOk : Bool) (db : DB) (s : List Session) :
    ((createPostAction (some uid) content image_url youtube_url upsertOk
        postInsertOk newPostId { db with user_sessions := s }).2 =
      (createPostAction (some uid) content image_url youtube_url upsertOk
        postInsertOk newPostId db).2)
    ∧ ((createPostAction (some uid) content image_url youtube_url upsertOk
        postInsertOk newPostId { db with user_sessions := s }).1.posts =
      (createPostAction (some uid) content image_url youtube_url upsertOk
        postInsertOk newPostId db).1.posts)
    ∧ ((createBusinessAction (some uid) nm d cat loc bizInsertOk newBizId
        { db with user_sessions := s }).2 =
      (createBusinessAction (some uid) nm d cat loc bizInsertOk newBizId
        db).2)
    ∧ ((createBusinessAction (some uid) nm d cat loc bizInsertOk newBizId
        { db with user_sessions := s }).1.businesses =
      (createBusinessAction (some uid) nm d cat loc bizInsertOk newBizId
        db).1.businesses)
    ∧ (∀ p, findProfile db uid = some p → jsTruthy content = true →
      (createPostAction (some uid) content image_url youtube_url upsertOk
          true newPostId db).2 = (200, CreatePostRes.success) ∧
      (createPostAction (some uid) content image_url youtube_url upsertOk
          true newPostId db).1.posts = db.posts ++
        [{ id := newPostId, user_id := uid, content := jsOrNull content,
           image_url := jsOrNull image_url,
           youtube_url := jsOrNull youtube_url }])
    ∧ (∀ p, findProfile db uid = some p → jsTruthy nm = true →
      (createBusinessAction (some uid) nm d cat loc true newBizId db).2 =
        (200, CreateBusinessRes.success) ∧
      (createBusinessAction (some uid) nm d cat loc true newBizId
          db).1.businesses = db.businesses ++
        [{ id := newBizId, owner_id := uid, name := nm.getD "",
           description := jsOrNull d, category := jsOr cat "other",
           location := jsOrNull loc, approval_status := "pending" }]) := by
  have hfp : findProfile { db with user_sessions := s } uid =
      findProfile db uid := rfl
  refine ⟨?_, ?_, ?_, ?_, ?_, ?_⟩
  · simp only [createPostAction, hfp]
    cases hf : findProfile db uid with
    | some p => simp only [hf]; split_ifs <;> rfl
    | none => simp only [hf]; split_ifs <;> rfl
  · simp only [createPostAction, hfp]
    cases hf : findProfile db uid with
    | some p => simp only [hf]; split_ifs <;> rfl
    | none => simp only [hf]; split_ifs <;> rfl
  · simp only [createBusinessAction, hfp]
    cases hf : findProfile db uid with
    | some p => simp only [hf]; split_ifs <;> rfl
    | none => simp only [hf]; split_ifs <;> rfl
  · simp only [createBusinessAction, hfp]
    cases hf : findProfile db uid with
    | some p => simp only [hf]; split_ifs <;> rfl
    | none => simp only [hf]; split_ifs <;> rfl
  · intro p hf hc
    constructor
    · simp [createPostAction, hf, hc]
    · simp [createPostAction, hf, hc]
  · intro p hf hn
    constructor
    · simp [createBusinessAction, hf, hn]
    · simp [createBusinessAction, hf, hn]

/-- Witness for the amended C2 at a concrete input: with profile 7 present,
create-post succeeds and appends the post row. -/
theorem createHandlers_no_session_witness :
    (createPostAction (some 7) (some "hello") none none true true 1
        dbProfile7).2 = (200, CreatePostRes.success) ∧
    (createPostAction (some 7) (some "hello") none none true true 1
        dbProfile7).1.posts = dbProfile7.posts ++
      [{ id := 1, user_id := 7, content := jsOrNull (some "hello"),
         image_url := jsOrNull none, youtube_url := jsOrNull none }] := by
  exact (createHandlers_no_session 7 1 1 (some "hello") none none none none
      none none true true true dbProfile7 []).2.2.2.2.1
    profile7 (by decide) (by decide)
